import Mathlib

/-! Validation of payments (`pkg/db/models/payment.go`)

A shallow embedding of the Go package `models`: the records `Entity` and
`Payment` and their `Validate` methods, followed by the properties of the
validation contract.

Conventions of the embedding.

* A Go `error` result is an `Option String`: `none` is `nil`, `some msg` is an
  error value whose `Error()` text is `msg`.
* A Go `string` is a `String`; validation only ever compares one with `""`.
* `float64` is the IEEE 754 binary64 format, given by its three bit fields, with
  the ordered comparisons of the Go language (every comparison with a NaN is
  false, and the two zeros compare equal).
* `time.Time` has the three fields of the standard library's representation
  (`wall`, `ext`, `loc`), and `IsZero` is the library's.
-/

namespace models

/-! ## Go values used by the model -/

/-- Go `error` result: `none` is `nil`, `some msg` is an error whose text is `msg`. -/
abbrev GoError := Option String

/-- Standard library `errors.New`: an error whose text is the given message. -/
def errors.New (text : String) : GoError := some text

/-- Standard library `fmt.Errorf` for a format `pre ++ "%v"` applied to a non-nil
error: the verb `%v` prints the error through its `Error()` text. -/
def fmt.Errorf (pre : String) (err : String) : GoError := some (pre ++ err)

/-- IEEE 754 binary64 (`float64`): sign bit, 11-bit biased exponent, 52-bit fraction. -/
structure Float64 where
  sign : Bool
  exponent : Fin 2048
  fraction : Fin 4503599627370496
  deriving DecidableEq

/-- Not-a-number: exponent all ones and a non-zero fraction. -/
def Float64.isNaN (x : Float64) : Bool :=
  x.exponent.val == 2047 && x.fraction.val != 0

/-- Position of a non-NaN value in the numeric order: the magnitude bits read as an
integer, negated under the sign bit (so `+0` and `-0` coincide, and the infinities
are the two extremes). -/
def Float64.key (x : Float64) : Int :=
  let m : Int := (x.exponent.val * 4503599627370496 + x.fraction.val : Nat)
  if x.sign then -m else m

/-- Go `x <= y` on `float64`: false as soon as an operand is a NaN. -/
def Float64.le (x y : Float64) : Bool :=
  !x.isNaN && !y.isNaN && decide (x.key ≤ y.key)

/-- Go `x > y` on `float64`: false as soon as an operand is a NaN. -/
def Float64.gt (x y : Float64) : Bool :=
  !x.isNaN && !y.isNaN && decide (y.key < x.key)

/-- The constant `0` converted to `float64` (positive zero). -/
def Float64.zero : Float64 := ⟨false, 0, 0⟩

/-- Standard library `time.Time`: `wall` is a `uint64`, `ext` an `int64`, and `loc`
a pointer to a location (`none` is `nil`, that is UTC). The methods read `wall`
modulo `2^64` and `ext` through `toInt64`, so that every value of the structure
stands for a machine value. -/
structure Time where
  wall : Nat
  ext : Int
  loc : Option Nat
  deriving DecidableEq

/-- Flag bit of `wall` (`hasMonotonic = 1 << 63`). -/
def hasMonotonic : Nat := 2 ^ 63

/-- Mask of the nanoseconds field of `wall` (`nsecMask = 1<<30 - 1`). -/
def nsecMask : Nat := 2 ^ 30 - 1

/-- Width of the nanoseconds field of `wall` (`nsecShift = 30`). -/
def nsecShift : Nat := 30

/-- Seconds from year 1 to year 1885
(`wallToInternal = (1884*365 + 1884/4 - 1884/100 + 1884/400) * 86400`). -/
def wallToInternal : Int := (1884 * 365 + 1884 / 4 - 1884 / 100 + 1884 / 400) * 86400

/-- Conversion to `int64` (wrap around modulo `2^64`). -/
def toInt64 (i : Int) : Int := (i + 2 ^ 63) % 2 ^ 64 - 2 ^ 63

/-- Conversion to `int32` (wrap around modulo `2^32`). -/
def toInt32 (i : Int) : Int := (i + 2 ^ 31) % 2 ^ 32 - 2 ^ 31

/-- Method `nsec` of `time.Time`: `int32(t.wall & nsecMask)`. -/
def Time.nsec (t : Time) : Int :=
  toInt32 (((t.wall % 2 ^ 64) &&& nsecMask : Nat) : Int)

/-- Method `sec` of `time.Time`: seconds since January 1, year 1. With the flag
`hasMonotonic` it is `wallToInternal + int64(t.wall<<1>>(nsecShift+1))`, otherwise
`t.ext`. -/
def Time.sec (t : Time) : Int :=
  if (t.wall % 2 ^ 64) &&& hasMonotonic ≠ 0 then
    toInt64 (wallToInternal
      + toInt64 ((((((t.wall % 2 ^ 64) <<< 1) % 2 ^ 64) >>> (nsecShift + 1)) : Nat) : Int))
  else
    toInt64 t.ext

/-- Method `IsZero` of `time.Time`: `t.sec() == 0 && t.nsec() == 0`. -/
def Time.IsZero (t : Time) : Bool :=
  t.sec == 0 && t.nsec == 0

/-- The zero value `time.Time{}`. -/
def Time.zero : Time := ⟨0, 0, none⟩

/-- Type `primitive.ObjectID` of the MongoDB driver: an array of twelve bytes. -/
structure ObjectID where
  bytes : Fin 12 → Fin 256

/-- The zero value of `primitive.ObjectID` (an identifier that is not set). -/
def ObjectID.nil : ObjectID := ⟨fun _ => 0⟩

/-! ## The package `models` -/

/-- Entity represents a party involved in a payment. -/
structure Entity where
  AccountNumber : String
  BankID : String
  Name : String
  deriving DecidableEq

/-- Validate validates the current Entity object. -/
def Entity.Validate (e : Entity) : GoError :=
  if e.AccountNumber = "" then
    errors.New "the entity's account number must not be empty"
  else if e.BankID = "" then
    errors.New "the entity's bank id must not be empty"
  else if e.Name = "" then
    errors.New "the entity's name must not be empty"
  else
    none

/-- Payment represents a payment to an entity (the beneficiary) made by another
entity (the debtor). `DeletedAt` is a pointer: `none` is `nil`. -/
structure Payment where
  ID : ObjectID
  UpdatedAt : Time
  DeletedAt : Option Time
  Beneficiary : Entity
  Debtor : Entity
  Amount : Float64
  Currency : String
  Date : Time
  Description : String

/-- Validate validates the current Payment object. -/
def Payment.Validate (p : Payment) : GoError :=
  match p.Beneficiary.Validate with
  | some err => fmt.Errorf "beneficiary: " err
  | none =>
    match p.Debtor.Validate with
    | some err => fmt.Errorf "debtor: " err
    | none =>
      if Float64.le p.Amount Float64.zero then
        errors.New "the amount must be positive"
      else if p.Currency = "" then
        errors.New "the currency must not be empty"
      else if p.Date.IsZero then
        errors.New "the date must not be empty"
      else if p.Description = "" then
        errors.New "the description must not be empty"
      else
        none

/-! ## Sample values -/

/-- A party with its three fields filled in. -/
def sampleEntity : Entity := ⟨"PT50000201231234567890154", "BCOMPTPL", "Alice"⟩

/-- A second party with its three fields filled in. -/
def otherEntity : Entity := ⟨"GB33BUKB20201555555555", "BUKBGB22", "Bob"⟩

/-- The `float64` value `100.0` (bits `0x4059000000000000`). -/
def Float64.hundred : Float64 := ⟨false, 1029, 2533274790395904⟩

/-- A quiet NaN (bits `0x7FF8000000000001`, the value of `math.NaN()`). -/
def Float64.nan : Float64 := ⟨false, 2047, 2251799813685249⟩

/-- Positive infinity (bits `0x7FF0000000000000`). -/
def Float64.inf : Float64 := ⟨false, 2047, 0⟩

/-- Negative zero (bits `0x8000000000000000`). -/
def Float64.negZero : Float64 := ⟨true, 0, 0⟩

/-- The instant 2019-01-01 00:00:00 UTC, as `time.Date` builds it: no monotonic
reading, `ext` holding the seconds since year 1. -/
def sampleDate : Time := ⟨0, 63681897600, none⟩

/-- Scenario B of the specification: a payment of `100.0` EUR between two valid
entities, dated and described. -/
def samplePayment : Payment :=
  { ID := ObjectID.nil, UpdatedAt := Time.zero, DeletedAt := none,
    Beneficiary := sampleEntity, Debtor := otherEntity,
    Amount := Float64.hundred, Currency := "EUR",
    Date := sampleDate, Description := "rent" }

/-- The payment of scenario B with a NaN for its amount. -/
def nanPayment : Payment := { samplePayment with Amount := Float64.nan }

/-! ## The checks in the words of the specification -/

/-- The three text fields of an `Entity`, in the order in which they are checked. -/
inductive Field where
  | accountNumber
  | bankID
  | name
  deriving DecidableEq

/-- How a field is called in an error message. -/
def Field.label : Field → String
  | .accountNumber => "account number"
  | .bankID => "bank id"
  | .name => "name"

/-- Specification side: the first empty field of an entity in the order
account number, bank id, name (`none` when no field is empty). -/
def Entity.firstEmptyField (e : Entity) : Option Field :=
  if e.AccountNumber = "" then some .accountNumber
  else if e.BankID = "" then some .bankID
  else if e.Name = "" then some .name
  else none

/-- Specification side: the six checks of a payment, each on its own, in the order
beneficiary, debtor, amount, currency, date, description. -/
def Payment.checks (p : Payment) : List GoError :=
  [ (p.Beneficiary.Validate).map (fun m => "beneficiary: " ++ m),
    (p.Debtor.Validate).map (fun m => "debtor: " ++ m),
    if Float64.le p.Amount Float64.zero then some "the amount must be positive" else none,
    if p.Currency = "" then some "the currency must not be empty" else none,
    if p.Date.IsZero then some "the date must not be empty" else none,
    if p.Description = "" then some "the description must not be empty" else none ]

/-- Specification side: the first failure of a list of check results. -/
def firstFailure : List GoError → GoError
  | [] => none
  | some m :: _ => some m
  | none :: rest => firstFailure rest

/-- The ten ways in which a payment can fail: an entity field under one of the two
roles, or one of the four fields of the payment itself. -/
inductive Check where
  | beneficiary (f : Field)
  | debtor (f : Field)
  | amount
  | currency
  | date
  | description
  deriving DecidableEq

/-- Specification side: the message that goes with each failure, the role in front of
an entity's message. -/
def Check.message : Check → String
  | .beneficiary f => "beneficiary: the entity's " ++ f.label ++ " must not be empty"
  | .debtor f => "debtor: the entity's " ++ f.label ++ " must not be empty"
  | .amount => "the amount must be positive"
  | .currency => "the currency must not be empty"
  | .date => "the date must not be empty"
  | .description => "the description must not be empty"

/-- Specification side: the first check that a payment fails, in the order
beneficiary (account number, bank id, name), debtor (the same three), amount,
currency, date, description; `none` when every check passes. -/
def Payment.firstFailing (p : Payment) : Option Check :=
  match p.Beneficiary.firstEmptyField with
  | some f => some (.beneficiary f)
  | none =>
    match p.Debtor.firstEmptyField with
    | some f => some (.debtor f)
    | none =>
      if Float64.le p.Amount Float64.zero then some .amount
      else if p.Currency = "" then some .currency
      else if p.Date.IsZero then some .date
      else if p.Description = "" then some .description
      else none

/-- Specification side: the payment with the two roles exchanged. -/
def Payment.swapRoles (p : Payment) : Payment :=
  { p with Beneficiary := p.Debtor, Debtor := p.Beneficiary }

/-! ## The methods as state transformers

Both methods have a pointer receiver, so a call could write to the record. Here each
method returns its error together with the record as the call leaves it. -/

/-- Validate on `*Entity`, with the entity after the call. No statement of the body
assigns to the receiver, so every `return` leaves the entity it has read. -/
def Entity.ValidateSt (e : Entity) : GoError × Entity :=
  if e.AccountNumber = "" then
    (errors.New "the entity's account number must not be empty", e)
  else if e.BankID = "" then
    (errors.New "the entity's bank id must not be empty", e)
  else if e.Name = "" then
    (errors.New "the entity's name must not be empty", e)
  else
    (none, e)

/-- Validate on `*Payment`, with the payment after the call. The two nested calls run
on `&p.Beneficiary` and `&p.Debtor`: what they leave is stored back in the payment. -/
def Payment.ValidateSt (p : Payment) : GoError × Payment :=
  let rb := Entity.ValidateSt p.Beneficiary
  let p1 : Payment := { p with Beneficiary := rb.2 }
  match rb.1 with
  | some err => (fmt.Errorf "beneficiary: " err, p1)
  | none =>
    let rd := Entity.ValidateSt p1.Debtor
    let p2 : Payment := { p1 with Debtor := rd.2 }
    match rd.1 with
    | some err => (fmt.Errorf "debtor: " err, p2)
    | none =>
      if Float64.le p2.Amount Float64.zero then
        (errors.New "the amount must be positive", p2)
      else if p2.Currency = "" then
        (errors.New "the currency must not be empty", p2)
      else if p2.Date.IsZero then
        (errors.New "the date must not be empty", p2)
      else if p2.Description = "" then
        (errors.New "the description must not be empty", p2)
      else
        (none, p2)

/-! ## More sample values -/

/-- An identifier that is set (bytes `01 01 … 01`). -/
def sampleID : ObjectID := ⟨fun _ => 1⟩

/-- Scenario B as a stored record that was soft-deleted: identifier set, both
timestamps of the metadata set. -/
def storedPayment : Payment :=
  { samplePayment with ID := sampleID, UpdatedAt := sampleDate,
                       DeletedAt := some sampleDate }

/-- Scenario B without a description. -/
def undescribedPayment : Payment := { samplePayment with Description := "" }

/-! ## Basic facts -/

/-- An entity passes validation exactly when none of its fields is empty. -/
theorem Entity.validate_none_iff_fields (e : Entity) :
    e.Validate = none ↔ e.AccountNumber ≠ "" ∧ e.BankID ≠ "" ∧ e.Name ≠ "" := by
  unfold Entity.Validate errors.New
  by_cases h1 : e.AccountNumber = "" <;> by_cases h2 : e.BankID = "" <;>
    by_cases h3 : e.Name = "" <;> simp [h1, h2, h3]

/-- The test `x <= 0` is false exactly for the values above zero and for the NaNs. -/
theorem Float64.le_zero_eq_false (x : Float64) :
    Float64.le x Float64.zero = false ↔
      Float64.gt x Float64.zero = true ∨ x.isNaN = true := by
  have hz : Float64.zero.isNaN = false := by decide
  have hk : Float64.zero.key = 0 := by decide
  unfold Float64.le Float64.gt
  rw [hz, hk]
  cases hn : x.isNaN <;> simp

/-- A value above zero is not `<= 0`. -/
theorem Float64.le_zero_of_gt (x : Float64) (h : Float64.gt x Float64.zero = true) :
    Float64.le x Float64.zero = false :=
  (Float64.le_zero_eq_false x).2 (Or.inl h)

/-- What `Validate` accepts, in terms of the conditions of its six tests. -/
theorem Payment.validate_none_iff_tests (p : Payment) :
    p.Validate = none ↔
      p.Beneficiary.Validate = none ∧ p.Debtor.Validate = none ∧
      Float64.le p.Amount Float64.zero = false ∧ p.Currency ≠ "" ∧
      p.Date.IsZero = false ∧ p.Description ≠ "" := by
  unfold Payment.Validate fmt.Errorf errors.New
  cases hb : p.Beneficiary.Validate <;> cases hd : p.Debtor.Validate <;>
    cases ha : Float64.le p.Amount Float64.zero <;>
    cases ht : p.Date.IsZero <;>
    by_cases hc : p.Currency = "" <;> by_cases hs : p.Description = "" <;>
    simp [hc, hs]

/-- An entity with an empty account number fails on that field. -/
theorem Entity.validate_accountNumber (e : Entity) (h : e.AccountNumber = "") :
    e.Validate = some "the entity's account number must not be empty" := by
  simp [Entity.Validate, errors.New, h]

/-- An entity whose first empty field is the bank id fails on that field. -/
theorem Entity.validate_bankID (e : Entity) (h1 : e.AccountNumber ≠ "")
    (h2 : e.BankID = "") :
    e.Validate = some "the entity's bank id must not be empty" := by
  simp [Entity.Validate, errors.New, h1, h2]

/-- An entity whose only empty field is the name fails on that field. -/
theorem Entity.validate_name (e : Entity) (h1 : e.AccountNumber ≠ "")
    (h2 : e.BankID ≠ "") (h3 : e.Name = "") :
    e.Validate = some "the entity's name must not be empty" := by
  simp [Entity.Validate, errors.New, h1, h2, h3]

/-- A failing beneficiary decides the result. -/
theorem Payment.validate_of_beneficiary (p : Payment) (msg : String)
    (h : p.Beneficiary.Validate = some msg) :
    p.Validate = some ("beneficiary: " ++ msg) := by
  simp [Payment.Validate, fmt.Errorf, h]

/-- A failing debtor decides the result once the beneficiary has passed. -/
theorem Payment.validate_of_debtor (p : Payment) (msg : String)
    (hb : p.Beneficiary.Validate = none) (h : p.Debtor.Validate = some msg) :
    p.Validate = some ("debtor: " ++ msg) := by
  simp [Payment.Validate, fmt.Errorf, hb, h]

/-- An amount `<= 0` decides the result once both entities have passed. -/
theorem Payment.validate_of_amount (p : Payment)
    (hb : p.Beneficiary.Validate = none) (hd : p.Debtor.Validate = none)
    (ha : Float64.le p.Amount Float64.zero = true) :
    p.Validate = some "the amount must be positive" := by
  simp [Payment.Validate, errors.New, hb, hd, ha]

/-- An empty currency decides the result once the first three tests have passed. -/
theorem Payment.validate_of_currency (p : Payment)
    (hb : p.Beneficiary.Validate = none) (hd : p.Debtor.Validate = none)
    (ha : Float64.le p.Amount Float64.zero = false) (hc : p.Currency = "") :
    p.Validate = some "the currency must not be empty" := by
  simp [Payment.Validate, errors.New, hb, hd, ha, hc]

/-- A zero date decides the result once the first four tests have passed. -/
theorem Payment.validate_of_date (p : Payment)
    (hb : p.Beneficiary.Validate = none) (hd : p.Debtor.Validate = none)
    (ha : Float64.le p.Amount Float64.zero = false) (hc : p.Currency ≠ "")
    (ht : p.Date.IsZero = true) :
    p.Validate = some "the date must not be empty" := by
  simp [Payment.Validate, errors.New, hb, hd, ha, hc, ht]

/-! ## The validation contract -/

/-- C1, at the input where it breaks: the payment of scenario B with a NaN amount
passes `Validate` (the test `Amount <= 0` is false for a NaN), although its amount
is not greater than zero. -/
theorem Payment.Validate_accepts_nan_amount :
    nanPayment.Validate = none ∧ Float64.gt nanPayment.Amount Float64.zero = false := by
  decide

/-- C2: a payment whose two entities have their three fields non-empty, whose amount
is greater than zero, whose currency and description are non-empty and whose date is
not the zero time, passes `Validate`. -/
theorem Payment.Validate_accepts_valid (p : Payment)
    (hb : p.Beneficiary.AccountNumber ≠ "" ∧ p.Beneficiary.BankID ≠ "" ∧
      p.Beneficiary.Name ≠ "")
    (hd : p.Debtor.AccountNumber ≠ "" ∧ p.Debtor.BankID ≠ "" ∧ p.Debtor.Name ≠ "")
    (ha : Float64.gt p.Amount Float64.zero = true)
    (hc : p.Currency ≠ "") (hs : p.Description ≠ "")
    (ht : p.Date.IsZero = false) :
    p.Validate = none :=
  (Payment.validate_none_iff_tests p).2
    ⟨(Entity.validate_none_iff_fields _).2 hb, (Entity.validate_none_iff_fields _).2 hd,
      Float64.le_zero_of_gt _ ha, hc, ht, hs⟩

/-- Witness of C2: scenario B (amount `100.0`, currency `EUR`, description `rent`,
a date in 2019 and two valid entities) passes. -/
theorem Payment.Validate_accepts_valid_witness :
    samplePayment.Amount = Float64.hundred ∧ samplePayment.Currency = "EUR" ∧
      samplePayment.Description = "rent" ∧ samplePayment.Validate = none :=
  ⟨rfl, rfl, rfl,
    Payment.Validate_accepts_valid samplePayment (by decide) (by decide) (by decide)
      (by decide) (by decide) (by decide)⟩

/-- C3: `Entity.Validate` returns no error if and only if the account number, the
bank id and the name are all different from the empty string. -/
theorem Entity.Validate_ok_iff_nonempty (e : Entity) :
    e.Validate = none ↔ e.AccountNumber ≠ "" ∧ e.BankID ≠ "" ∧ e.Name ≠ "" :=
  Entity.validate_none_iff_fields e

/-- C4: an entity with at least one empty field fails, and the message names the
first empty field in the order account number, bank id, name; when the account
number is empty the message is exactly
`the entity's account number must not be empty`. -/
theorem Entity.Validate_names_first_empty (e : Entity)
    (h : e.AccountNumber = "" ∨ e.BankID = "" ∨ e.Name = "") :
    (∃ f, e.firstEmptyField = some f ∧
      e.Validate = some ("the entity's " ++ f.label ++ " must not be empty")) ∧
    (e.AccountNumber = "" →
      e.Validate = some "the entity's account number must not be empty") := by
  refine ⟨?_, Entity.validate_accountNumber e⟩
  by_cases h1 : e.AccountNumber = ""
  · exact ⟨.accountNumber, by simp [Entity.firstEmptyField, h1],
      Entity.validate_accountNumber e h1⟩
  · by_cases h2 : e.BankID = ""
    · exact ⟨.bankID, by simp [Entity.firstEmptyField, h1, h2],
        Entity.validate_bankID e h1 h2⟩
    · have h3 : e.Name = "" := by
        rcases h with h | h | h
        · exact absurd h h1
        · exact absurd h h2
        · exact h
      exact ⟨.name, by simp [Entity.firstEmptyField, h1, h2, h3],
        Entity.validate_name e h1 h2 h3⟩

/-- Witness of C4: scenario A, the entity with account number `""`, bank id `X` and
name `Y`. -/
theorem Entity.Validate_names_first_empty_witness :
    Entity.Validate ⟨"", "X", "Y"⟩ = some "the entity's account number must not be empty" :=
  (Entity.Validate_names_first_empty ⟨"", "X", "Y"⟩ (Or.inl rfl)).2 rfl

/-- C5 as stated fails: the entity of scenario A has an empty account number and its
message is `the entity's account number must not be empty`, not
`account number must not be empty`; so the three short texts are not the messages
of `Entity.Validate`. -/
theorem Entity.Validate_short_texts_refuted :
    Entity.Validate ⟨"", "X", "Y"⟩ ≠ some "account number must not be empty" ∧
    ¬ (∀ e : Entity,
      (e.AccountNumber = "" → e.Validate = some "account number must not be empty") ∧
      (e.AccountNumber ≠ "" → e.BankID = "" →
        e.Validate = some "bank id must not be empty") ∧
      (e.AccountNumber ≠ "" → e.BankID ≠ "" → e.Name = "" →
        e.Validate = some "name must not be empty")) := by
  have hne : Entity.Validate ⟨"", "X", "Y"⟩ ≠ some "account number must not be empty" := by
    decide
  exact ⟨hne, fun h => hne ((h ⟨"", "X", "Y"⟩).1 rfl)⟩

/-- C5, amended: the message texts of `Entity.Validate` are
`the entity's account number must not be empty` when the account number is empty,
`the entity's bank id must not be empty` when the account number is non-empty and
the bank id is empty, and `the entity's name must not be empty` when the account
number and the bank id are non-empty and the name is empty. -/
theorem Entity.Validate_message_texts (e : Entity) :
    (e.AccountNumber = "" →
      e.Validate = some "the entity's account number must not be empty") ∧
    (e.AccountNumber ≠ "" → e.BankID = "" →
      e.Validate = some "the entity's bank id must not be empty") ∧
    (e.AccountNumber ≠ "" → e.BankID ≠ "" → e.Name = "" →
      e.Validate = some "the entity's name must not be empty") :=
  ⟨Entity.validate_accountNumber e, Entity.validate_bankID e, Entity.validate_name e⟩

/-- Witness of C5 amended: one entity for each of the three texts. -/
theorem Entity.Validate_message_texts_witness :
    Entity.Validate ⟨"", "X", "Y"⟩ = some "the entity's account number must not be empty" ∧
    Entity.Validate ⟨"A", "", "Y"⟩ = some "the entity's bank id must not be empty" ∧
    Entity.Validate ⟨"A", "X", ""⟩ = some "the entity's name must not be empty" :=
  ⟨(Entity.Validate_message_texts ⟨"", "X", "Y"⟩).1 rfl,
    (Entity.Validate_message_texts ⟨"A", "", "Y"⟩).2.1 (by decide) rfl,
    (Entity.Validate_message_texts ⟨"A", "X", ""⟩).2.2 (by decide) (by decide) rfl⟩

/-- C6: when the beneficiary fails `Entity.Validate` with message `msg`, the payment
fails with exactly `beneficiary: ` followed by `msg`, whatever the debtor, amount,
currency, date and description. -/
theorem Payment.Validate_beneficiary_error (p : Payment) (msg : String)
    (h : p.Beneficiary.Validate = some msg) :
    p.Validate = some ("beneficiary: " ++ msg) :=
  Payment.validate_of_beneficiary p msg h

/-- Witness of C6: a beneficiary without account number, in a payment whose debtor is
empty as well. -/
theorem Payment.Validate_beneficiary_error_witness :
    Payment.Validate
      { samplePayment with Beneficiary := ⟨"", "X", "Y"⟩, Debtor := ⟨"", "", ""⟩ } =
      some "beneficiary: the entity's account number must not be empty" :=
  Payment.Validate_beneficiary_error
    { samplePayment with Beneficiary := ⟨"", "X", "Y"⟩, Debtor := ⟨"", "", ""⟩ }
    "the entity's account number must not be empty" (by decide)

/-- C7: when the beneficiary passes and the debtor fails `Entity.Validate` with
message `msg`, the payment fails with exactly `debtor: ` followed by `msg`, whatever
the amount, currency, date and description. -/
theorem Payment.Validate_debtor_error (p : Payment) (msg : String)
    (hb : p.Beneficiary.Validate = none) (h : p.Debtor.Validate = some msg) :
    p.Validate = some ("debtor: " ++ msg) :=
  Payment.validate_of_debtor p msg hb h

/-- Witness of C7: a debtor without name, in a payment whose amount is zero. -/
theorem Payment.Validate_debtor_error_witness :
    Payment.Validate
      { samplePayment with Debtor := ⟨"A", "X", ""⟩, Amount := Float64.zero } =
      some "debtor: the entity's name must not be empty" :=
  Payment.Validate_debtor_error
    { samplePayment with Debtor := ⟨"A", "X", ""⟩, Amount := Float64.zero }
    "the entity's name must not be empty" (by decide) (by decide)

/-- C8: when both entities pass and the amount is `<= 0`, the payment fails with
`the amount must be positive`, whatever the currency, date and description. -/
theorem Payment.Validate_amount_error (p : Payment)
    (hb : p.Beneficiary.Validate = none) (hd : p.Debtor.Validate = none)
    (ha : Float64.le p.Amount Float64.zero = true) :
    p.Validate = some "the amount must be positive" :=
  Payment.validate_of_amount p hb hd ha

/-- Witness of C8: scenario C, amount `0`. -/
theorem Payment.Validate_amount_error_witness :
    Payment.Validate { samplePayment with Amount := Float64.zero } =
      some "the amount must be positive" :=
  Payment.Validate_amount_error { samplePayment with Amount := Float64.zero }
    (by decide) (by decide) (by decide)

/-- C9: `Payment.Validate` is the first failure of its six checks taken in the order
beneficiary, debtor, amount, currency, date, description; and the error of a failing
check does not change when the fields of the later checks are replaced (by valid
values in particular). -/
theorem Payment.Validate_first_failure_wins (p : Payment) :
    p.Validate = firstFailure p.checks ∧
    (p.Beneficiary.Validate ≠ none → ∀ d a c t s,
      Payment.Validate { p with Debtor := d, Amount := a, Currency := c, Date := t,
                                Description := s } = p.Validate) ∧
    (p.Beneficiary.Validate = none → p.Debtor.Validate ≠ none → ∀ a c t s,
      Payment.Validate { p with Amount := a, Currency := c, Date := t,
                                Description := s } = p.Validate) ∧
    (p.Beneficiary.Validate = none → p.Debtor.Validate = none →
      Float64.le p.Amount Float64.zero = true → ∀ c t s,
      Payment.Validate { p with Currency := c, Date := t, Description := s } =
        p.Validate) ∧
    (p.Beneficiary.Validate = none → p.Debtor.Validate = none →
      Float64.le p.Amount Float64.zero = false → p.Currency = "" → ∀ t s,
      Payment.Validate { p with Date := t, Description := s } = p.Validate) ∧
    (p.Beneficiary.Validate = none → p.Debtor.Validate = none →
      Float64.le p.Amount Float64.zero = false → p.Currency ≠ "" →
      p.Date.IsZero = true → ∀ s,
      Payment.Validate { p with Description := s } = p.Validate) := by
  refine ⟨?_, ?_, ?_, ?_, ?_, ?_⟩
  · unfold Payment.Validate Payment.checks fmt.Errorf errors.New
    cases hb : p.Beneficiary.Validate <;> cases hd : p.Debtor.Validate <;>
      cases ha : Float64.le p.Amount Float64.zero <;>
      cases ht : p.Date.IsZero <;>
      by_cases hc : p.Currency = "" <;> by_cases hs : p.Description = "" <;>
      simp [firstFailure, hc, hs]
  · intro hb d a c t s
    cases hv : p.Beneficiary.Validate with
    | none => exact absurd hv hb
    | some msg => simp [Payment.Validate, hv]
  · intro hb hd a c t s
    cases hv : p.Debtor.Validate with
    | none => exact absurd hv hd
    | some msg => simp [Payment.Validate, hb, hv]
  · intro hb hd ha c t s
    simp [Payment.Validate, hb, hd, ha]
  · intro hb hd ha hc t s
    simp [Payment.Validate, hb, hd, ha, hc]
  · intro hb hd ha hc ht s
    simp [Payment.Validate, hb, hd, ha, hc, ht]

/-- Witness of C9: the three examples of the claim. An invalid beneficiary with an
invalid debtor gives the beneficiary error, an amount `0` with an empty currency the
amount error, an empty currency with a zero date the currency error: each time the
error of the payment whose later fields are made valid. -/
theorem Payment.Validate_first_failure_wins_witness :
    (Payment.Validate
        { samplePayment with Beneficiary := ⟨"", "X", "Y"⟩, Debtor := otherEntity } =
      Payment.Validate
        { samplePayment with Beneficiary := ⟨"", "X", "Y"⟩, Debtor := ⟨"A", "", "Y"⟩ }) ∧
    (Payment.Validate { samplePayment with Amount := Float64.zero, Currency := "EUR" } =
      Payment.Validate { samplePayment with Amount := Float64.zero, Currency := "" }) ∧
    (Payment.Validate { samplePayment with Currency := "", Date := sampleDate } =
      Payment.Validate { samplePayment with Currency := "", Date := Time.zero }) :=
  ⟨(Payment.Validate_first_failure_wins
      { samplePayment with Beneficiary := ⟨"", "X", "Y"⟩, Debtor := ⟨"A", "", "Y"⟩ }).2.1
      (by decide) otherEntity Float64.hundred "EUR" sampleDate "rent",
    (Payment.Validate_first_failure_wins
      { samplePayment with Amount := Float64.zero, Currency := "" }).2.2.2.1
      (by decide) (by decide) (by decide) "EUR" sampleDate "rent",
    (Payment.Validate_first_failure_wins
      { samplePayment with Currency := "", Date := Time.zero }).2.2.2.2.1
      (by decide) (by decide) (by decide) (by decide) sampleDate "rent"⟩

/-- C10: when both entities pass, the amount is greater than zero, the currency is
non-empty and the date is the zero time, the payment fails with
`the date must not be empty`, whatever the description. -/
theorem Payment.Validate_date_error (p : Payment)
    (hb : p.Beneficiary.Validate = none) (hd : p.Debtor.Validate = none)
    (ha : Float64.gt p.Amount Float64.zero = true) (hc : p.Currency ≠ "")
    (ht : p.Date.IsZero = true) :
    p.Validate = some "the date must not be empty" :=
  Payment.validate_of_date p hb hd (Float64.le_zero_of_gt _ ha) hc ht

/-- Witness of C10: scenario D, the date left at `time.Time{}`, here with an empty
description as well. -/
theorem Payment.Validate_date_error_witness :
    Time.IsZero Time.zero = true ∧
    Payment.Validate { samplePayment with Date := Time.zero, Description := "" } =
      some "the date must not be empty" :=
  ⟨by decide,
    Payment.Validate_date_error
      { samplePayment with Date := Time.zero, Description := "" }
      (by decide) (by decide) (by decide) (by decide) (by decide)⟩

/-! ## Description, messages, purity, metadata and roles -/

/-- An empty description decides the result once the first five tests have passed. -/
theorem Payment.validate_of_description (p : Payment)
    (hb : p.Beneficiary.Validate = none) (hd : p.Debtor.Validate = none)
    (ha : Float64.le p.Amount Float64.zero = false) (hc : p.Currency ≠ "")
    (ht : p.Date.IsZero = false) (hs : p.Description = "") :
    p.Validate = some "the description must not be empty" := by
  simp [Payment.Validate, errors.New, hb, hd, ha, hc, ht, hs]

/-- The message of an entity is built from the label of its first empty field. -/
theorem Entity.validate_eq_label (e : Entity) :
    e.Validate =
      e.firstEmptyField.map (fun f => "the entity's " ++ f.label ++ " must not be empty") := by
  unfold Entity.Validate Entity.firstEmptyField errors.New
  by_cases h1 : e.AccountNumber = ""
  · simp only [h1, if_true, Option.map_some']; rfl
  · by_cases h2 : e.BankID = ""
    · simp only [h1, h2, if_true, if_false, Option.map_some']; rfl
    · by_cases h3 : e.Name = ""
      · simp only [h1, h2, h3, if_true, if_false, Option.map_some']; rfl
      · simp only [h1, h2, h3, if_false, Option.map_none']

/-- The result of `Validate` is the message of the first failing check. -/
theorem Payment.validate_eq_message (p : Payment) :
    p.Validate = p.firstFailing.map Check.message := by
  unfold Payment.Validate Payment.firstFailing
  rw [Entity.validate_eq_label, Entity.validate_eq_label]
  cases hb : p.Beneficiary.firstEmptyField with
  | some f => cases f <;> rfl
  | none =>
    cases hd : p.Debtor.firstEmptyField with
    | some f => cases f <;> rfl
    | none =>
      cases ha : Float64.le p.Amount Float64.zero <;>
        cases ht : p.Date.IsZero <;>
        by_cases hc : p.Currency = "" <;> by_cases hs : p.Description = "" <;>
        simp [hc, hs, errors.New, Check.message]

/-- Two different failures never share a message. -/
theorem Check.message_injective (c d : Check) (h : c.message = d.message) : c = d := by
  revert h
  cases c with
  | beneficiary f => cases f <;> cases d with
    | beneficiary g => cases g <;> decide
    | debtor g => cases g <;> decide
    | _ => decide
  | debtor f => cases f <;> cases d with
    | beneficiary g => cases g <;> decide
    | debtor g => cases g <;> decide
    | _ => decide
  | _ => cases d with
    | beneficiary g => cases g <;> decide
    | debtor g => cases g <;> decide
    | _ => decide

/-- The state-passing form of `Entity.Validate` leaves the entity as it was and
returns what `Entity.Validate` returns. -/
theorem Entity.validateSt_entity_eq (e : Entity) : Entity.ValidateSt e = (e.Validate, e) := by
  unfold Entity.ValidateSt Entity.Validate
  by_cases h1 : e.AccountNumber = "" <;> by_cases h2 : e.BankID = "" <;>
    by_cases h3 : e.Name = "" <;> simp [h1, h2, h3]

/-- The state-passing form of `Payment.Validate` leaves the payment as it was and
returns what `Payment.Validate` returns. -/
theorem Payment.validateSt_payment_eq (p : Payment) : Payment.ValidateSt p = (p.Validate, p) := by
  obtain ⟨i, u, x, b, d, a, c, t, s⟩ := p
  unfold Payment.ValidateSt Payment.Validate
  simp only [Entity.validateSt_entity_eq]
  cases hb : b.Validate <;> cases hd : d.Validate <;>
    cases ha : Float64.le a Float64.zero <;>
    cases ht : t.IsZero <;>
    by_cases hc : c = "" <;> by_cases hs : s = "" <;>
    simp [hc, hs]

/-- C11: the description is required. When every other check passes (both entities
valid, amount greater than zero, currency non-empty, date not the zero time) and the
description is empty, the payment fails with the error of the description check,
`the description must not be empty`. -/
theorem Payment.Validate_description_error (p : Payment)
    (hb : p.Beneficiary.Validate = none) (hd : p.Debtor.Validate = none)
    (ha : Float64.gt p.Amount Float64.zero = true) (hc : p.Currency ≠ "")
    (ht : p.Date.IsZero = false) (hs : p.Description = "") :
    p.Validate = some "the description must not be empty" :=
  Payment.validate_of_description p hb hd (Float64.le_zero_of_gt _ ha) hc ht hs

/-- Witness of C11: the stored record of scenario B with its description emptied. -/
theorem Payment.Validate_description_error_witness :
    Payment.Validate { storedPayment with Description := "" } =
      some "the description must not be empty" :=
  Payment.Validate_description_error { storedPayment with Description := "" }
    (by decide) (by decide) (by decide) (by decide) (by decide) rfl

/-- C12, at the input where it breaks: scenario B without a description has a valid
beneficiary, debtor, amount, currency and date, and `Validate` rejects it, although
the field is documented as optional. -/
theorem Payment.Validate_rejects_empty_description :
    undescribedPayment.Beneficiary.Validate = none ∧
    undescribedPayment.Debtor.Validate = none ∧
    Float64.gt undescribedPayment.Amount Float64.zero = true ∧
    undescribedPayment.Currency ≠ "" ∧
    undescribedPayment.Date.IsZero = false ∧
    undescribedPayment.Description = "" ∧
    undescribedPayment.Validate = some "the description must not be empty" := by
  decide

/-- C13: the ten failures have pairwise distinct messages, the result of `Validate`
is the message of the first failing check, and therefore two payments that fail with
the same message have the same first failing check. -/
theorem Payment.Validate_message_identifies_check :
    (∀ c d : Check, c.message = d.message → c = d) ∧
    (∀ p : Payment, p.Validate = p.firstFailing.map Check.message) ∧
    (∀ (p q : Payment) (msg : String), p.Validate = some msg → q.Validate = some msg →
      p.firstFailing = q.firstFailing) := by
  refine ⟨Check.message_injective, Payment.validate_eq_message, ?_⟩
  intro p q msg hp hq
  rw [Payment.validate_eq_message] at hp hq
  cases hcp : p.firstFailing with
  | none => rw [hcp] at hp; cases hp
  | some c =>
    cases hcq : q.firstFailing with
    | none => rw [hcq] at hq; cases hq
    | some d =>
      rw [hcp, Option.map_some', Option.some.injEq] at hp
      rw [hcq, Option.map_some', Option.some.injEq] at hq
      rw [Check.message_injective c d (hp.trans hq.symm)]

/-- Witness of C13: a payment with amount `0` and a stored payment with amount `-0`
and no currency both fail with `the amount must be positive`, and for both the first
failing check is the amount. -/
theorem Payment.Validate_message_identifies_check_witness :
    Payment.firstFailing { samplePayment with Amount := Float64.zero } =
      Payment.firstFailing { storedPayment with Amount := Float64.negZero, Currency := "" } :=
  Payment.Validate_message_identifies_check.2.2
    { samplePayment with Amount := Float64.zero }
    { storedPayment with Amount := Float64.negZero, Currency := "" }
    "the amount must be positive" (by decide) (by decide)

/-- C14: both methods are pure. The record after a call of `Validate` is the record
before the call, and a second call on it returns the result of the first; this holds
for every entity and for every payment. -/
theorem Validate_pure_and_repeatable :
    (∀ e : Entity, (Entity.ValidateSt e).2 = e ∧
      (Entity.ValidateSt (Entity.ValidateSt e).2).1 = (Entity.ValidateSt e).1) ∧
    (∀ p : Payment, (Payment.ValidateSt p).2 = p ∧
      (Payment.ValidateSt (Payment.ValidateSt p).2).1 = (Payment.ValidateSt p).1) := by
  constructor
  · intro e
    simp only [Entity.validateSt_entity_eq, and_self]
  · intro p
    simp only [Payment.validateSt_payment_eq, and_self]

/-- C15: `Validate` does not read the metadata. Two payments with the same
beneficiary, debtor, amount, currency, date and description get the same result,
whatever their identifier, modification date and deletion date. -/
theorem Payment.Validate_ignores_metadata (p q : Payment)
    (hb : p.Beneficiary = q.Beneficiary) (hd : p.Debtor = q.Debtor)
    (ha : p.Amount = q.Amount) (hc : p.Currency = q.Currency)
    (ht : p.Date = q.Date) (hs : p.Description = q.Description) :
    p.Validate = q.Validate := by
  unfold Payment.Validate
  rw [hb, hd, ha, hc, ht, hs]

/-- Witness of C15: scenario B as built by a caller (identifier unset, modification
date zero, not deleted) and as a stored, soft-deleted record validate alike. -/
theorem Payment.Validate_ignores_metadata_witness :
    samplePayment.UpdatedAt ≠ storedPayment.UpdatedAt ∧
    samplePayment.DeletedAt = none ∧ storedPayment.DeletedAt ≠ none ∧
    samplePayment.Validate = storedPayment.Validate :=
  ⟨by decide, rfl, by decide,
    Payment.Validate_ignores_metadata samplePayment storedPayment rfl rfl rfl rfl rfl rfl⟩

/-- C16: the two roles are treated alike. A payment passes if and only if the payment
with beneficiary and debtor exchanged passes, and a payment whose beneficiary and
debtor are one and the same valid entity passes when its other fields are valid. -/
theorem Payment.Validate_roles_symmetric (p : Payment) :
    (p.Validate = none ↔ p.swapRoles.Validate = none) ∧
    (∀ e : Entity, e.Validate = none → Float64.gt p.Amount Float64.zero = true →
      p.Currency ≠ "" → p.Date.IsZero = false → p.Description ≠ "" →
      Payment.Validate { p with Beneficiary := e, Debtor := e } = none) := by
  constructor
  · rw [Payment.validate_none_iff_tests, Payment.validate_none_iff_tests]
    simp only [Payment.swapRoles]
    constructor
    · rintro ⟨hb, hd, rest⟩
      exact ⟨hd, hb, rest⟩
    · rintro ⟨hd, hb, rest⟩
      exact ⟨hb, hd, rest⟩
  · intro e he ha hc ht hs
    exact (Payment.validate_none_iff_tests _).2
      ⟨he, he, Float64.le_zero_of_gt _ ha, hc, ht, hs⟩

/-- Witness of C16: scenario B passes with its roles exchanged, and with one entity
in both roles. -/
theorem Payment.Validate_roles_symmetric_witness :
    samplePayment.swapRoles.Validate = none ∧
    Payment.Validate
      { samplePayment with Beneficiary := sampleEntity, Debtor := sampleEntity } = none :=
  ⟨(Payment.Validate_roles_symmetric samplePayment).1.1 (by decide),
    (Payment.Validate_roles_symmetric samplePayment).2 sampleEntity
      (by decide) (by decide) (by decide) (by decide) (by decide)⟩

end models
